import Mathlib

/-!
Shallow embedding of the request handlers of `server.js` (Sistema
Veterinário, a clinic-management backend persisting its data in flat JSON
files).

Modelling conventions, shared by every definition below:

* A JS object read from or written to one of the JSON data files is modelled
  extensionally, as a partial map from field names to values (`Obj`).  A key
  mapped to `none` is absent.  A key assigned the JS value `undefined` is
  also modelled as absent: every object that reaches such a state here is
  immediately serialised by `JSON.stringify`, which drops such keys, or fed
  to an object spread coming from `JSON.parse` output, where the two states
  are indistinguishable in this program.
* The bodies of `fs.readFile`/`fs.writeFile` are outside the program.  A read
  of a data file is modelled by handing the handler the parsed contents, with
  `none` standing for any read or parse error (`readJSON`); a write is
  modelled as succeeding, so each handler returns the collection it wrote
  (its error branch changes only the response message and performs no state
  change).
* Environment reads (`Date.now()`, `new Date().toISOString()`,
  `new Date().toLocaleString` with locale `pt-BR`) are passed to the handlers
  as explicit parameters.
-/

namespace VetHub

/-- JSON-ish runtime values of the program: strings, numbers, booleans,
`null`, and nested objects.  Numbers are modelled as `Nat`; the only numbers
the handlers produce or compare are `Date.now()` timestamps and record ids
derived from them. -/
inductive Val where
  | vstr : String → Val
  | vnum : Nat → Val
  | vbool : Bool → Val
  | vnull : Val
  | vobj : (String → Option Val) → Val

/-- A JS object: a partial map from field names to values.  `none` means the
field is absent. -/
def Obj : Type := String → Option Val

/-- The empty object `\x7b\x7d`. -/
def Obj.empty : Obj := fun _ => none

/-- Field assignment `o[k] = v`, and the field `k : v` written last in an
object literal. -/
def Obj.set (o : Obj) (k : String) (v : Val) : Obj :=
  fun k2 => if k2 = k then some v else o k2

/-- Assignment of a possibly-undefined value (`o[k] = e` where `e` may be
`undefined`, e.g. a destructured body field). -/
def Obj.setOpt (o : Obj) (k : String) (v : Option Val) : Obj :=
  fun k2 => if k2 = k then v else o k2

/-- `delete o[k]`, and the `k : undefined` idiom in an object that is then
serialised (JSON.stringify drops such keys). -/
def Obj.del (o : Obj) (k : String) : Obj :=
  fun k2 => if k2 = k then none else o k2

/-- The object spread `\x7b...a, ...b\x7d`: fields of `b` override fields of
`a`.  (Both operands here always come from `JSON.parse` output or from stored
records, so no own key of `b` holds `undefined`.) -/
def Obj.override (a b : Obj) : Obj :=
  fun k => match b k with
    | some v => some v
    | none => a k

/-- Reading a field that must be an object to be used (the
`if (!pet.exames) pet.exames = \x7b\x7d` pattern before a spread): an absent or
null field behaves as the empty object.  The server only ever stores objects
in the fields accessed this way. -/
def Obj.objAt (o : Obj) (k : String) : Obj :=
  match o k with
  | some (.vobj f) => f
  | _ => Obj.empty

/-- JS truthiness of a value, as used in `if (!x)`, `x && y`, `x || y`. -/
def Val.truthy : Val → Bool
  | .vstr s => !(s == "")
  | .vnum n => !(n == 0)
  | .vbool b => b
  | .vnull => false
  | .vobj _ => true

/-- Truthiness of a possibly-absent value (`undefined` is falsy). -/
def truthyOpt : Option Val → Bool
  | some v => v.truthy
  | none => false

/-- JS strict equality `===` restricted to the values this program compares:
primitive values compare structurally; two object values occurring here are
never the same reference (each comes from its own `JSON.parse`), so `===` on
them is `false`. -/
def Val.eqb : Val → Val → Bool
  | .vstr a, .vstr b => a == b
  | .vnum a, .vnum b => a == b
  | .vbool a, .vbool b => a == b
  | .vnull, .vnull => true
  | _, _ => false

/-- `===` on possibly-absent values (`undefined === undefined` is `true`). -/
def strictEqOpt : Option Val → Option Val → Bool
  | some a, some b => Val.eqb a b
  | none, none => true
  | _, _ => false

/-- `o === s` for a string literal `s`. -/
def isStr (o : Option Val) (s : String) : Bool :=
  strictEqOpt o (some (.vstr s))

/-- The `p.id == id` test of the handlers: the URL parameter is a string
that JS loose equality coerces to a number; stored ids are numbers
(`Date.now()` values). -/
def idEqb (p : Obj) (id : Nat) : Bool :=
  strictEqOpt (p ("id")) (some (.vnum id))

/-- `r.login === login` for a supplied login string. -/
def loginEqb (r : Obj) (login : String) : Bool :=
  isStr (r ("login")) login

/-- `senha === r.senha` for a supplied senha string. -/
def senhaEqb (r : Obj) (senha : String) : Bool :=
  isStr (r ("senha")) senha

/-- A stored record matches the supplied credentials: its `login` equals the
supplied login and its `senha` equals the supplied senha. -/
def credsMatch (r : Obj) (login senha : String) : Bool :=
  loginEqb r login && senhaEqb r senha

/-- The logins stored in a collection are pairwise distinct. -/
def distinctLogins (l : List Obj) : Prop :=
  l.Pairwise (fun a b => a ("login") ≠ b ("login"))

/-- `readJSON` (server.js:26): parse the file contents, returning `[]` on any
read or parse error (`none` models the error case). -/
def readJSON (contents : Option (List Obj)) : List Obj :=
  contents.getD []

/-- Response of GET /api/pets. -/
structure PetsResult where
  success : Bool
  pets : List Obj

/-- GET /api/pets (server.js:257). -/
def getPets (contents : Option (List Obj)) : PetsResult :=
  ⟨true, readJSON contents⟩

/-- The `findIndex` / mutate-matched-element / rewrite-whole-file pattern
shared by every pet PUT handler: replace the first element satisfying `p` by
`f` of it; `none` when no element matches (`findIndex` returned `-1`). -/
def updateFirst (p : Obj → Bool) (f : Obj → Obj) : List Obj → Option (List Obj)
  | [] => none
  | x :: xs => if p x then some (f x :: xs) else (updateFirst p f xs).map (fun l => x :: l)

/-- `findIndex` splitting the list at the first match: the elements before
the match, the matched element, and the elements after it. -/
def splitFirst (p : Obj → Bool) : List Obj → Option (List Obj × Obj × List Obj)
  | [] => none
  | x :: xs =>
    if p x then some ([], x, xs)
    else (splitFirst p xs).map (fun r => (x :: r.1, r.2.1, r.2.2))

/-- Response and resulting stored collection of a pet PUT handler. -/
structure PutResult where
  success : Bool
  message : String
  animais : List Obj

/-- PUT /api/salvar-anamnese/:id (server.js:267).  `now` is
`new Date().toLocaleString` with locale pt-BR. -/
def salvarAnamnese (animais : List Obj) (id : Nat) (anamneseData : Obj) (now : String) : PutResult :=
  match updateFirst (fun p => idEqb p id)
      (fun pet => pet.set ("anamnese") (.vobj (anamneseData.set ("data") (.vstr now)))) animais with
  | none => ⟨false, "Pet não encontrado", animais⟩
  | some l => ⟨true, "Anamnese salva com sucesso!", l⟩

/-- PUT /api/salvar-historico-clinico/:id (server.js:295).
`historicoClinico` is the destructured body field (possibly absent). -/
def salvarHistoricoClinico (animais : List Obj) (id : Nat) (historicoClinico : Option Val) (now : String) : PutResult :=
  match updateFirst (fun p => idEqb p id)
      (fun pet => pet.set ("exames")
        (.vobj (((pet.objAt ("exames")).setOpt ("historicoClinico") historicoClinico).set ("dataHistorico") (.vstr now)))) animais with
  | none => ⟨false, "Pet não encontrado", animais⟩
  | some l => ⟨true, "Histórico clínico salvo com sucesso!", l⟩

/-- PUT /api/salvar-vacinacao/:id (server.js:325): merge of the request body
into the pet's `exames` object, then the server-set date field. -/
def salvarVacinacao (animais : List Obj) (id : Nat) (vacinacaoData : Obj) (now : String) : PutResult :=
  match updateFirst (fun p => idEqb p id)
      (fun pet => pet.set ("exames")
        (.vobj (((pet.objAt ("exames")).override vacinacaoData).set ("dataVacinacao") (.vstr now)))) animais with
  | none => ⟨false, "Pet não encontrado", animais⟩
  | some l => ⟨true, "Vacinação salva com sucesso!", l⟩

/-- PUT /api/salvar-consultas/:id, first registration (server.js:358), the
one Express serves: merge of the request body into the pet's `consultas`
object.  The second registration of the same path (server.js:500) is dead. -/
def salvarConsultas (animais : List Obj) (id : Nat) (consultasData : Obj) (now : String) : PutResult :=
  match updateFirst (fun p => idEqb p id)
      (fun pet => pet.set ("consultas")
        (.vobj (((pet.objAt ("consultas")).override consultasData).set ("dataAtualizacao") (.vstr now)))) animais with
  | none => ⟨false, "Pet não encontrado", animais⟩
  | some l => ⟨true, "Consultas salvas com sucesso!", l⟩

/-- PUT /api/salvar-exames/:id (server.js:391): merge of the request body
into the pet's `exames` object, then the server-set date field. -/
def salvarExames (animais : List Obj) (id : Nat) (examesData : Obj) (now : String) : PutResult :=
  match updateFirst (fun p => idEqb p id)
      (fun pet => pet.set ("exames")
        (.vobj (((pet.objAt ("exames")).override examesData).set ("dataExames") (.vstr now)))) animais with
  | none => ⟨false, "Pet não encontrado", animais⟩
  | some l => ⟨true, "Exames salvos com sucesso!", l⟩

/-- PUT /api/salvar-observacoes/:id, first registration (server.js:424), the
one Express serves.  `observacoes` is the destructured body field. -/
def salvarObservacoes (animais : List Obj) (id : Nat) (observacoes : Option Val) (now : String) : PutResult :=
  match updateFirst (fun p => idEqb p id)
      (fun pet => (pet.setOpt ("observacoes") observacoes).set ("dataObservacoes") (.vstr now)) animais with
  | none => ⟨false, "Pet não encontrado", animais⟩
  | some l => ⟨true, "Observações salvas com sucesso!", l⟩

/-- PUT /api/alterar-tag/:id (server.js:475).  `tag` is the destructured body
field. -/
def alterarTag (animais : List Obj) (id : Nat) (tag : Option Val) : PutResult :=
  match updateFirst (fun p => idEqb p id)
      (fun pet => pet.setOpt ("tag") tag) animais with
  | none => ⟨false, "Pet não encontrado", animais⟩
  | some l => ⟨true, "Tag alterada com sucesso!", l⟩

/-- Response of POST /api/salvar-pet. -/
structure SalvarPetResult where
  success : Bool
  pet : Obj
  animais : List Obj

/-- POST /api/salvar-pet (server.js:216).  `now` is `Date.now()` and `iso`
is `new Date().toISOString()`.  The fields written after the body spread in
the object literal (`tag`, `anamnese`, `observacoes`, `dataCadastro`)
override any same-named body field; a body `id` field overrides the
generated one. -/
def salvarPet (animais : List Obj) (petData : Obj) (now : Nat) (iso : String) : SalvarPetResult :=
  let novoPet :=
    (((((Obj.empty.set ("id") (.vnum now)).override petData).set
        ("tag") (.vstr "green")).set
        ("anamnese") .vnull).set
        ("observacoes") (.vstr "")).set
        ("dataCadastro") (.vstr iso)
  ⟨true, novoPet, animais ++ [novoPet]⟩

/-- Response of POST /api/login: the serialised user object on success, the
error message otherwise. -/
inductive LoginResult where
  | ok : Obj → LoginResult
  | fail : String → LoginResult

/-- The `success` flag of a login response. -/
def LoginResult.isOk : LoginResult → Bool
  | .ok _ => true
  | .fail _ => false

/-- The funcionário block of POST /api/login (server.js:84-96): find by
login, check senha, and on success answer with the explicitly projected user
object. -/
def loginFuncionarios (funcionarios : List Obj) (login senha : String) : LoginResult :=
  match funcionarios.find? (fun f => loginEqb f login) with
  | some f =>
    if senhaEqb f senha then
      .ok ((((((Obj.empty.setOpt ("id") (f ("id"))).setOpt
          ("nome") (f ("nome"))).setOpt
          ("login") (f ("login"))).setOpt
          ("contato") (f ("contato"))).setOpt
          ("role") (f ("role"))).set
          ("tipo") (.vstr "funcionario"))
    else .fail "Usuário ou senha incorretos!"
  | none => .fail "Usuário ou senha incorretos!"

/-- The tutor block of POST /api/login (server.js:70-81): find by login,
check senha, on success answer with the spread user plus `tipo`, the senha
dropped; otherwise fall through to the funcionário block. -/
def loginUsuarios (usuarios funcionarios : List Obj) (login senha : String) : LoginResult :=
  match usuarios.find? (fun u => loginEqb u login) with
  | some u =>
    if senhaEqb u senha then .ok ((u.set ("tipo") (.vstr "tutor")).del ("senha"))
    else loginFuncionarios funcionarios login senha
  | none => loginFuncionarios funcionarios login senha

/-- POST /api/login (server.js:48): reject empty credentials, then try the
medicos collection, falling through to usuarios and then funcionarios. -/
def loginHandler (medicos usuarios funcionarios : List Obj) (login senha : String) : LoginResult :=
  if login = "" ∨ senha = "" then .fail "Login e senha são obrigatórios!"
  else
    match medicos.find? (fun m => loginEqb m login) with
    | some m =>
      if senhaEqb m senha then .ok ((m.set ("tipo") (.vstr "medico")).del ("senha"))
      else loginUsuarios usuarios funcionarios login senha
    | none => loginUsuarios usuarios funcionarios login senha

/-- The per-record projection of GET /api/funcionarios (server.js:587): only
id, nome, login, contato, role and crmv are returned. -/
def funcionarioSafe (f : Obj) : Obj :=
  (((((Obj.empty.setOpt ("id") (f ("id"))).setOpt
      ("nome") (f ("nome"))).setOpt
      ("login") (f ("login"))).setOpt
      ("contato") (f ("contato"))).setOpt
      ("role") (f ("role"))).setOpt
      ("crmv") (f ("crmv"))

/-- Response of GET /api/funcionarios. -/
structure ListFuncResult where
  success : Bool
  funcionarios : List Obj

/-- GET /api/funcionarios (server.js:583). -/
def listFuncionarios (funcionarios : List Obj) : ListFuncResult :=
  ⟨true, funcionarios.map funcionarioSafe⟩

/-- The crmv-stripping rule and the field update of PUT /api/funcionarios/:id
(server.js:664-678): an Estagiario not being promoted to a vet role cannot be
assigned a CRMV; `id` and `dataCadastro` are removed from the update before
it is spread over the current record. -/
def funcApply (current updateData : Obj) : Obj :=
  let upd :=
    if isStr (current ("role")) "Estagiario" then
      let targetRole : Option Val :=
        if truthyOpt (updateData ("role")) then updateData ("role") else current ("role")
      if !(isStr targetRole "Vet junior" || isStr targetRole "Medico vet") then
        updateData.del ("crmv")
      else updateData
    else updateData
  current.override ((upd.del ("id")).del ("dataCadastro"))

/-- Outcome of the role-change validation of PUT /api/funcionarios/:id. -/
inductive FuncCheck where
  | reject : String → FuncCheck
  | accept : Obj → FuncCheck

/-- The role-change validation of PUT /api/funcionarios/:id
(server.js:636-662), entered only when the body carries a truthy `role`
strictly different from the stored one, followed by the update application. -/
def funcUpdate (current updateData : Obj) : FuncCheck :=
  if truthyOpt (updateData ("role")) && !(strictEqOpt (updateData ("role")) (current ("role"))) then
    if isStr (current ("role")) "Medico vet" then
      .reject "Usuário Veterinário não pode ser alterado."
    else if (isStr (current ("role")) "Recepção" || isStr (current ("role")) "Internação")
        && !(strictEqOpt (updateData ("role")) (current ("role"))) then
      .reject "Funcionários de Recepção ou Internação não podem alterar o cargo."
    else if isStr (current ("role")) "Estagiario" && !(isStr (updateData ("role")) "Vet junior") then
      .reject "Estagiário só pode mudar para Vet junior."
    else if isStr (current ("role")) "Vet junior" && !(isStr (updateData ("role")) "Medico vet") then
      .reject "Vet junior só pode mudar para Medico vet."
    else .accept (funcApply current updateData)
  else .accept (funcApply current updateData)

/-- Response and resulting stored collection of PUT /api/funcionarios/:id. -/
structure FuncResult where
  success : Bool
  message : String
  funcionario : Option Obj
  funcionarios : List Obj

/-- PUT /api/funcionarios/:id (server.js:625). -/
def updateFuncionario (funcionarios : List Obj) (id : Nat) (updateData : Obj) : FuncResult :=
  match splitFirst (fun f => idEqb f id) funcionarios with
  | none => ⟨false, "Funcionário não encontrado", none, funcionarios⟩
  | some (a, current, b) =>
    match funcUpdate current updateData with
    | .reject msg => ⟨false, msg, none, funcionarios⟩
    | .accept updated =>
      ⟨true, "Funcionário atualizado com sucesso", some (updated.del ("senha")), a ++ updated :: b⟩

/-- The salvar-anamnese route as reached by an arbitrary caller.  server.js
installs no authentication or session middleware on any /api route and keeps
no session state (its own TODO list records the absence), so a request is
handled the same way whatever the role of the caller: the role parameter is
ignored. -/
def salvarAnamneseAsCaller (_callerRole : String) (animais : List Obj) (id : Nat)
    (anamneseData : Obj) (now : String) : PutResult :=
  salvarAnamnese animais id anamneseData now

/-- The salvar-exames route as reached by an arbitrary caller; as with
`salvarAnamneseAsCaller`, no middleware consults the caller's role. -/
def salvarExamesAsCaller (_callerRole : String) (animais : List Obj) (id : Nat)
    (examesData : Obj) (now : String) : PutResult :=
  salvarExames animais id examesData now

/-! Concrete records used by the counterexample and witness theorems. -/

/-- A stored pet with id 1 and a null anamnese. -/
def petA : Obj :=
  ((((Obj.empty.set ("id") (.vnum 1)).set
      ("nome") (.vstr "Rex")).set
      ("tag") (.vstr "green")).set
      ("anamnese") .vnull).set
      ("observacoes") (.vstr "")

/-- A stored pet with id 2 and a previously saved historicoClinico inside
its exames object. -/
def petB : Obj :=
  (((Obj.empty.set ("id") (.vnum 2)).set
      ("nome") (.vstr "Mia")).set
      ("tag") (.vstr "green")).set
      ("exames") (.vobj ((Obj.empty.set ("historicoClinico") (.vstr "old")).set
        ("dataHistorico") (.vstr "01/01/2024")))

/-- An anamnese request body. -/
def anBody : Obj :=
  Obj.empty.set ("queixa") (.vstr "tosse")

/-- An exames request body that itself carries the server-set date key. -/
def examesClashBody : Obj :=
  (Obj.empty.set ("hemograma") (.vstr "ok")).set ("dataExames") (.vstr "01/01/2020")

/-- A stored funcionário whose role is Medico vet. -/
def vetFunc : Obj :=
  (((((Obj.empty.set ("id") (.vnum 1)).set
      ("nome") (.vstr "Ana")).set
      ("login") (.vstr "ana")).set
      ("senha") (.vstr "segredo")).set
      ("role") (.vstr "Medico vet")).set
      ("dataCadastro") (.vstr "2024-01-01")

/-- An update body whose `role` is the empty string (falsy in JS). -/
def emptyRoleUpd : Obj :=
  Obj.empty.set ("role") (.vstr "")

/-- A stored tutor whose login is the empty string. -/
def emptyLoginUser : Obj :=
  (Obj.empty.set ("login") (.vstr "")).set ("senha") (.vstr "x")

/-- A stored médico record. -/
def medicoRec : Obj :=
  (((Obj.empty.set ("nome") (.vstr "Bia")).set
      ("login") (.vstr "bia")).set
      ("senha") (.vstr "123456")).set
      ("crmv") (.vstr "CRMV-1")

/-- `medicoRec` with a different stored senha. -/
def medicoRec2 : Obj :=
  (((Obj.empty.set ("nome") (.vstr "Bia")).set
      ("login") (.vstr "bia")).set
      ("senha") (.vstr "outra")).set
      ("crmv") (.vstr "CRMV-1")

/-- Erasing the senha field of a record: two collections are equal up to
stored senha values exactly when their images under this map are equal. -/
def Obj.scrubSenha (f : Obj) : Obj :=
  fun k => if k = "senha" then none else f k

/-- A vaccination request body. -/
def vacBody : Obj :=
  Obj.empty.set ("vacina") (.vstr "v10")

/-- A funcionário update body carrying id and dataCadastro keys. -/
def idClashUpd : Obj :=
  ((Obj.empty.set ("id") (.vnum 99)).set
      ("dataCadastro") (.vstr "1999-01-01")).set
      ("contato") (.vstr "11999990000")

/-! ### Generic lemmas about the update pattern -/

theorem updateFirst_none (p : Obj → Bool) (f : Obj → Obj) (l : List Obj)
    (h : ∀ y ∈ l, p y = false) : updateFirst p f l = none := by
  induction l with
  | nil => rfl
  | cons x xs ih =>
    have hx : p x = false := h x (by simp)
    simp [updateFirst, hx, ih (fun y hy => h y (by simp [hy]))]

theorem updateFirst_append (p : Obj → Bool) (f : Obj → Obj) (a : List Obj) (x : Obj) (b : List Obj)
    (ha : ∀ y ∈ a, p y = false) (hx : p x = true) :
    updateFirst p f (a ++ x :: b) = some (a ++ f x :: b) := by
  induction a with
  | nil => simp [updateFirst, hx]
  | cons y ys ih =>
    have hy : p y = false := ha y (by simp)
    simp [updateFirst, hy, ih (fun z hz => ha z (by simp [hz]))]

theorem splitFirst_append (p : Obj → Bool) (a : List Obj) (x : Obj) (b : List Obj)
    (ha : ∀ y ∈ a, p y = false) (hx : p x = true) :
    splitFirst p (a ++ x :: b) = some (a, x, b) := by
  induction a with
  | nil => simp [splitFirst, hx]
  | cons y ys ih =>
    have hy : p y = false := ha y (by simp)
    simp [splitFirst, hy, ih (fun z hz => ha z (by simp [hz]))]

theorem getElem?_append_len {α : Type} (a : List α) (y : α) (b : List α) :
    (a ++ y :: b)[a.length]? = some y := by
  induction a with
  | nil => simp
  | cons z zs ih => simpa using ih

/-! ### C10 -/

/-- C10: a missing or unparseable data file is treated as an empty
collection, never as a crash: `readJSON` yields `[]` on the error case, and
GET /api/pets evaluated against a missing animais.json answers success with
an empty pets list. -/
theorem c10_read_error_empty_collection :
    readJSON none = ([] : List Obj) ∧ getPets none = ⟨true, []⟩ :=
  ⟨rfl, rfl⟩

/-! ### C5 -/

/-- C5: POST /api/salvar-pet appends exactly one new record to the animais
collection, leaving every previously stored pet unchanged, and regardless of
the request body the new record has tag green, null anamnese and empty
observacoes; the response carries that record with success. -/
theorem c5_salvar_pet (animais : List Obj) (petData : Obj) (now : Nat) (iso : String) :
    (salvarPet animais petData now iso).success = true
    ∧ (salvarPet animais petData now iso).animais
        = animais ++ [(salvarPet animais petData now iso).pet]
    ∧ (salvarPet animais petData now iso).pet ("tag") = some (.vstr "green")
    ∧ (salvarPet animais petData now iso).pet ("anamnese") = some .vnull
    ∧ (salvarPet animais petData now iso).pet ("observacoes") = some (.vstr "") :=
  ⟨rfl, rfl, rfl, rfl, rfl⟩

/-! ### C4 -/

/-- C4: PUT /api/alterar-tag/:id is a read-modify-write of the whole animais
collection touching only the tag field of the first pet whose id matches:
every other record is unchanged, and every field of the matched record other
than tag is unchanged. -/
theorem c4_alterar_tag_frame (a : List Obj) (x : Obj) (b : List Obj) (id : Nat) (tag : Option Val)
    (ha : ∀ y ∈ a, idEqb y id = false) (hx : idEqb x id = true) :
    (alterarTag (a ++ x :: b) id tag).success = true
    ∧ (alterarTag (a ++ x :: b) id tag).animais = a ++ (x.setOpt ("tag") tag) :: b
    ∧ (∀ k, k ≠ "tag" → (x.setOpt ("tag") tag) k = x k)
    ∧ (x.setOpt ("tag") tag) ("tag") = tag := by
  have h := updateFirst_append (fun p => idEqb p id) (fun pet => pet.setOpt ("tag") tag) a x b ha hx
  refine ⟨?_, ?_, ?_, rfl⟩
  · simp [alterarTag, h]
  · simp [alterarTag, h]
  · intro k hk
    simp [Obj.setOpt, hk]

/-- Witness for C4 at a concrete two-pet store. -/
theorem c4_alterar_tag_frame_witness :
    (alterarTag [petA, petB] 2 (some (.vstr "red"))).success = true
    ∧ (alterarTag [petA, petB] 2 (some (.vstr "red"))).animais
        = [petA] ++ (petB.setOpt ("tag") (some (.vstr "red"))) :: []
    ∧ (petB.setOpt ("tag") (some (.vstr "red"))) ("nome") = petB ("nome") := by
  have h := c4_alterar_tag_frame [petA] petB [] 2 (some (.vstr "red"))
    (by decide) (by decide)
  exact ⟨h.1, h.2.1, h.2.2.1 ("nome") (by decide)⟩

/-! ### C7 -/

/-- C7: every sub-record save request whose id matches no stored pet answers
success false with the message Pet não encontrado, and the animais collection
is unchanged (no write happens on this path), for all six sub-record
endpoints. -/
theorem c7_not_found (animais : List Obj) (id : Nat) (body : Obj) (v : Option Val) (now : String)
    (h : ∀ pet ∈ animais, idEqb pet id = false) :
    salvarAnamnese animais id body now = ⟨false, "Pet não encontrado", animais⟩
    ∧ salvarHistoricoClinico animais id v now = ⟨false, "Pet não encontrado", animais⟩
    ∧ salvarVacinacao animais id body now = ⟨false, "Pet não encontrado", animais⟩
    ∧ salvarConsultas animais id body now = ⟨false, "Pet não encontrado", animais⟩
    ∧ salvarExames animais id body now = ⟨false, "Pet não encontrado", animais⟩
    ∧ salvarObservacoes animais id v now = ⟨false, "Pet não encontrado", animais⟩ := by
  have hn : ∀ f, updateFirst (fun p => idEqb p id) f animais = none :=
    fun f => updateFirst_none _ f animais h
  refine ⟨?_, ?_, ?_, ?_, ?_, ?_⟩ <;>
    simp [salvarAnamnese, salvarHistoricoClinico, salvarVacinacao, salvarConsultas,
      salvarExames, salvarObservacoes, hn]

/-- Witness for C7 at a store holding one pet and a non-matching id. -/
theorem c7_not_found_witness :
    salvarAnamnese [petA] 99 anBody "d" = ⟨false, "Pet não encontrado", [petA]⟩
    ∧ salvarExames [petA] 99 anBody "d" = ⟨false, "Pet não encontrado", [petA]⟩ := by
  have h := c7_not_found [petA] 99 anBody (some (.vstr "o")) "d" (by decide)
  exact ⟨h.1, h.2.2.2.2.1⟩

/-! ### C6 -/

/-- C6 counterexample to the claim as stated: the request body may itself
carry the server-set date key, and then the resulting exames object does not
contain that field of the request body: the server's date overrides it. -/
theorem c6_counterexample :
    examesClashBody ("dataExames") = some (.vstr "01/01/2020")
    ∧ (salvarExames [petB] 2 examesClashBody "02/02/2025, 10:00:00").animais.map
        (fun p => (p.objAt ("exames")) ("dataExames"))
      = [some (.vstr "02/02/2025, 10:00:00")]
    ∧ (some (Val.vstr "02/02/2025, 10:00:00") : Option Val) ≠ some (.vstr "01/01/2020") := by
  refine ⟨rfl, rfl, fun h => absurd (Val.vstr.inj (Option.some.inj h)) (by decide)⟩

/-- C6 amended: saving vaccination or exam data merges fields rather than
replacing the object: for every key other than the server-set date field
(dataVacinacao resp. dataExames, which always holds the supplied current
date, overriding any same-named body field), a key of the request body keeps
the body's value and a key absent from the body keeps the previous exames
value; the collection is rewritten with only the matched pet's exames field
replaced by this merge. -/
theorem c6_exames_field_merge (a : List Obj) (x : Obj) (b : List Obj) (id : Nat)
    (body : Obj) (now : String)
    (ha : ∀ y ∈ a, idEqb y id = false) (hx : idEqb x id = true) :
    ((salvarVacinacao (a ++ x :: b) id body now).animais
        = a ++ (x.set ("exames")
            (.vobj (((x.objAt ("exames")).override body).set ("dataVacinacao") (.vstr now)))) :: b
      ∧ (((x.objAt ("exames")).override body).set ("dataVacinacao") (.vstr now)) ("dataVacinacao")
          = some (.vstr now)
      ∧ (∀ k v, k ≠ "dataVacinacao" → body k = some v →
          (((x.objAt ("exames")).override body).set ("dataVacinacao") (.vstr now)) k = some v)
      ∧ (∀ k, k ≠ "dataVacinacao" → body k = none →
          (((x.objAt ("exames")).override body).set ("dataVacinacao") (.vstr now)) k
            = (x.objAt ("exames")) k))
    ∧ ((salvarExames (a ++ x :: b) id body now).animais
        = a ++ (x.set ("exames")
            (.vobj (((x.objAt ("exames")).override body).set ("dataExames") (.vstr now)))) :: b
      ∧ (((x.objAt ("exames")).override body).set ("dataExames") (.vstr now)) ("dataExames")
          = some (.vstr now)
      ∧ (∀ k v, k ≠ "dataExames" → body k = some v →
          (((x.objAt ("exames")).override body).set ("dataExames") (.vstr now)) k = some v)
      ∧ (∀ k, k ≠ "dataExames" → body k = none →
          (((x.objAt ("exames")).override body).set ("dataExames") (.vstr now)) k
            = (x.objAt ("exames")) k)) := by
  refine ⟨⟨?_, rfl, ?_, ?_⟩, ⟨?_, rfl, ?_, ?_⟩⟩
  · simp [salvarVacinacao, updateFirst_append _ _ a x b ha hx]
  · intro k v hk hb; simp [Obj.set, hk, Obj.override, hb]
  · intro k hk hb; simp [Obj.set, hk, Obj.override, hb]
  · simp [salvarExames, updateFirst_append _ _ a x b ha hx]
  · intro k v hk hb; simp [Obj.set, hk, Obj.override, hb]
  · intro k hk hb; simp [Obj.set, hk, Obj.override, hb]

/-- Witness for C6 (amended) at a pet previously holding a historicoClinico:
the body field is stored, the previous field survives, and the date field is
set. -/
theorem c6_exames_field_merge_witness :
    (((petB.objAt ("exames")).override vacBody).set ("dataExames") (.vstr "02/02/2025")) ("vacina")
        = some (.vstr "v10")
    ∧ (((petB.objAt ("exames")).override vacBody).set ("dataExames") (.vstr "02/02/2025"))
        ("historicoClinico") = (petB.objAt ("exames")) ("historicoClinico")
    ∧ (petB.objAt ("exames")) ("historicoClinico") = some (.vstr "old") := by
  have h := c6_exames_field_merge [] petB [] 2 vacBody "02/02/2025" (by decide) (by decide)
  exact ⟨h.2.2.2.1 ("vacina") (.vstr "v10") (by decide) rfl,
    h.2.2.2.2 ("historicoClinico") (by decide) rfl, rfl⟩

/-! ### C3 -/

/-- C3 counterexample to the claim as stated: a caller whose role is tutor,
neither veterinarian nor staff, successfully appends an anamnese and the
targeted pet record changes. -/
theorem c3_counterexample :
    (salvarAnamneseAsCaller "tutor" [petA] 1 anBody "03/03/2025").success = true
    ∧ (("tutor" : String) ≠ "medico" ∧ ("tutor" : String) ≠ "funcionario")
    ∧ (salvarAnamneseAsCaller "tutor" [petA] 1 anBody "03/03/2025").animais.map
        (fun p => p ("anamnese"))
      = [some (.vobj (anBody.set ("data") (.vstr "03/03/2025")))]
    ∧ petA ("anamnese") = some .vnull
    ∧ (some (Val.vobj (anBody.set ("data") (.vstr "03/03/2025"))) : Option Val) ≠ some Val.vnull := by
  refine ⟨rfl, by decide, rfl, rfl, fun h => Val.noConfusion (Option.some.inj h)⟩

/-- C3 amended: the server enforces no role authorization on the sub-record
append endpoints: the outcome of an append request is independent of the
caller's role (server.js installs no session or auth middleware), and a
request naming a stored pet succeeds whatever the caller's role. -/
theorem c3_no_role_check (caller1 caller2 : String) (animais : List Obj) (id : Nat)
    (body : Obj) (now : String) :
    salvarAnamneseAsCaller caller1 animais id body now
        = salvarAnamneseAsCaller caller2 animais id body now
    ∧ salvarExamesAsCaller caller1 animais id body now
        = salvarExamesAsCaller caller2 animais id body now
    ∧ (∀ a x b, animais = a ++ x :: b → (∀ y ∈ a, idEqb y id = false) → idEqb x id = true →
        (salvarAnamneseAsCaller caller1 animais id body now).success = true
        ∧ (salvarExamesAsCaller caller1 animais id body now).success = true) := by
  refine ⟨rfl, rfl, ?_⟩
  rintro a x b rfl ha hx
  constructor
  · simp [salvarAnamneseAsCaller, salvarAnamnese, updateFirst_append _ _ a x b ha hx]
  · simp [salvarExamesAsCaller, salvarExames, updateFirst_append _ _ a x b ha hx]

/-- Witness for C3 (amended) at a concrete store and a tutor caller. -/
theorem c3_no_role_check_witness :
    (salvarAnamneseAsCaller "tutor" [petA] 1 anBody "d").success = true
    ∧ (salvarExamesAsCaller "tutor" [petA] 1 anBody "d").success = true := by
  exact (c3_no_role_check "tutor" "medico" [petA] 1 anBody "d").2.2
    [] petA [] rfl (by decide) (by decide)

/-! ### C2 and C9: PUT /api/funcionarios/:id -/

theorem funcUpdate_accept (current upd u : Obj) (h : funcUpdate current upd = .accept u) :
    u = funcApply current upd := by
  unfold funcUpdate at h
  split_ifs at h <;> cases h <;> rfl

theorem funcApply_keeps_id_dataCadastro (current upd : Obj) :
    funcApply current upd ("id") = current ("id")
    ∧ funcApply current upd ("dataCadastro") = current ("dataCadastro") :=
  ⟨rfl, rfl⟩

/-- C2: evaluating PUT /api/funcionarios/:id at the failing input: the stored
funcionário has role Medico vet and the update body carries the empty-string
role, which is falsy, so the role-change validation is skipped and the spread
overwrites the role with success — contradicting the claimed invariant that a
Medico vet record never has its role changed. -/
theorem c2_medico_vet_role_overwritten :
    vetFunc ("role") = some (.vstr "Medico vet")
    ∧ (updateFuncionario [vetFunc] 1 emptyRoleUpd).success = true
    ∧ (updateFuncionario [vetFunc] 1 emptyRoleUpd).funcionarios.map (fun f => f ("role"))
        = [some (.vstr "")] :=
  ⟨rfl, rfl, rfl⟩

/-- C9: PUT /api/funcionarios/:id never changes the id or dataCadastro of the
updated record, for every request body, including bodies carrying id or
dataCadastro keys: the stored record at the matched position keeps both
fields. -/
theorem c9_update_keeps_id_dataCadastro (a : List Obj) (x : Obj) (b : List Obj) (id : Nat)
    (upd : Obj)
    (ha : ∀ y ∈ a, idEqb y id = false) (hx : idEqb x id = true) :
    ((updateFuncionario (a ++ x :: b) id upd).funcionarios)[a.length]?.map (fun f => f ("id"))
        = some (x ("id"))
    ∧ ((updateFuncionario (a ++ x :: b) id upd).funcionarios)[a.length]?.map
        (fun f => f ("dataCadastro")) = some (x ("dataCadastro")) := by
  have hs := splitFirst_append (fun f => idEqb f id) a x b ha hx
  unfold updateFuncionario
  rw [hs]
  dsimp only
  cases hfu : funcUpdate x upd with
  | reject m =>
    dsimp only
    rw [getElem?_append_len a x b]
    exact ⟨rfl, rfl⟩
  | accept u =>
    have hu := funcUpdate_accept x upd u hfu
    subst hu
    dsimp only
    rw [getElem?_append_len a (funcApply x upd) b]
    exact ⟨congrArg some (funcApply_keeps_id_dataCadastro x upd).1,
      congrArg some (funcApply_keeps_id_dataCadastro x upd).2⟩

/-- Witness for C9 at a concrete funcionário and a body carrying id and
dataCadastro keys. -/
theorem c9_update_keeps_id_dataCadastro_witness :
    ((updateFuncionario [vetFunc] 1 idClashUpd).funcionarios)[0]?.map (fun f => f ("id"))
        = some (vetFunc ("id"))
    ∧ vetFunc ("id") = some (.vnum 1)
    ∧ idClashUpd ("id") = some (.vnum 99) := by
  exact ⟨(c9_update_keeps_id_dataCadastro [] vetFunc [] 1 idClashUpd
    (by decide) (by decide)).1, rfl, rfl⟩

/-! ### C1: POST /api/login -/

theorem isStr_true_iff (o : Option Val) (s : String) :
    isStr o s = true ↔ o = some (.vstr s) := by
  cases o with
  | none => simp [isStr, strictEqOpt]
  | some v => cases v <;> simp [isStr, strictEqOpt, Val.eqb]

theorem credsMatch_iff (r : Obj) (login senha : String) :
    credsMatch r login senha = true ↔
      r ("login") = some (.vstr login) ∧ r ("senha") = some (.vstr senha) := by
  simp [credsMatch, Bool.and_eq_true, loginEqb, senhaEqb, isStr_true_iff]

theorem no_match_of_find?_none {l : List Obj} {login : String}
    (h : l.find? (fun r => loginEqb r login) = none) (senha : String) :
    ∀ r ∈ l, credsMatch r login senha = false := by
  intro r hr
  have hl : loginEqb r login = false := by
    simpa using List.find?_eq_none.mp h r hr
  simp [credsMatch, hl]

theorem mem_eq_of_distinct : ∀ {l : List Obj}, distinctLogins l → ∀ {r m : Obj},
    r ∈ l → m ∈ l → r ("login") = m ("login") → r = m := by
  intro l
  induction l with
  | nil => intro _ r m hr; cases hr
  | cons x xs ih =>
    intro hd r m hr hm h
    rcases List.pairwise_cons.mp hd with ⟨hx, hxs⟩
    rcases List.mem_cons.mp hr with rfl | hr2
    · rcases List.mem_cons.mp hm with rfl | hm2
      · rfl
      · exact absurd h (hx m hm2)
    · rcases List.mem_cons.mp hm with rfl | hm2
      · exact absurd h.symm (hx r hr2)
      · exact ih hxs hr2 hm2 h

theorem no_match_of_bad_senha {l : List Obj} {login senha : String} {m : Obj}
    (hd : distinctLogins l)
    (hf : l.find? (fun r => loginEqb r login) = some m)
    (hs : senhaEqb m senha = false) :
    ∀ r ∈ l, credsMatch r login senha = false := by
  intro r hr
  cases hc : credsMatch r login senha with
  | false => rfl
  | true =>
    exfalso
    rcases (credsMatch_iff r login senha).mp hc with ⟨hl, hsen⟩
    have hm : m ∈ l := List.mem_of_find?_eq_some hf
    have hml : loginEqb m login = true := by simpa using List.find?_some hf
    have hml2 : m ("login") = some (.vstr login) := by
      rw [loginEqb] at hml; exact (isStr_true_iff _ _).mp hml
    have hrm : r = m := mem_eq_of_distinct hd hr hm (by rw [hl, hml2])
    subst hrm
    have : senhaEqb r senha = true := by
      rw [senhaEqb]; exact (isStr_true_iff _ _).mpr hsen
    rw [this] at hs
    exact Bool.noConfusion hs

theorem loginFuncionarios_spec (funcionarios : List Obj) (login senha : String)
    (hf : distinctLogins funcionarios) :
    ((loginFuncionarios funcionarios login senha).isOk = true ↔
      ∃ r ∈ funcionarios, credsMatch r login senha = true)
    ∧ (∀ u, loginFuncionarios funcionarios login senha = .ok u →
        u ("tipo") = some (.vstr "funcionario")) := by
  rw [loginFuncionarios]
  cases hfind : funcionarios.find? (fun f => loginEqb f login) with
  | none =>
    dsimp only
    have hno := no_match_of_find?_none hfind senha
    constructor
    · constructor
      · intro h
        exact absurd h (by simp [LoginResult.isOk])
      · rintro ⟨r, hr, hc⟩
        rw [hno r hr] at hc
        exact absurd hc (by simp)
    · intro u hu
      exact LoginResult.noConfusion hu
  | some f =>
    have hmem : f ∈ funcionarios := List.mem_of_find?_eq_some hfind
    have hlog : loginEqb f login = true := by simpa using List.find?_some hfind
    dsimp only
    cases hsen : senhaEqb f senha with
    | true =>
      rw [if_pos rfl]
      constructor
      · exact ⟨fun _ => ⟨f, hmem, by simp [credsMatch, hlog, hsen]⟩, fun _ => rfl⟩
      · intro u hu
        have h2 := (LoginResult.ok.inj hu).symm
        subst h2
        rfl
    | false =>
      rw [if_neg (by simp)]
      have hno := no_match_of_bad_senha hf hfind hsen
      constructor
      · constructor
        · intro h
          exact absurd h (by simp [LoginResult.isOk])
        · rintro ⟨r, hr, hc⟩
          rw [hno r hr] at hc
          exact absurd hc (by simp)
      · intro u hu
        exact LoginResult.noConfusion hu

theorem loginUsuarios_spec (usuarios funcionarios : List Obj) (login senha : String)
    (hu : distinctLogins usuarios) (hf : distinctLogins funcionarios) :
    ((loginUsuarios usuarios funcionarios login senha).isOk = true ↔
      ∃ r ∈ usuarios ++ funcionarios, credsMatch r login senha = true)
    ∧ (∀ u, loginUsuarios usuarios funcionarios login senha = .ok u →
        ((∃ r ∈ usuarios, credsMatch r login senha = true) ∧ u ("tipo") = some (.vstr "tutor"))
        ∨ ((∀ r ∈ usuarios, credsMatch r login senha = false)
            ∧ (∃ r ∈ funcionarios, credsMatch r login senha = true)
            ∧ u ("tipo") = some (.vstr "funcionario"))) := by
  have hfs := loginFuncionarios_spec funcionarios login senha hf
  rw [loginUsuarios]
  cases hfind : usuarios.find? (fun r => loginEqb r login) with
  | none =>
    dsimp only
    have hno := no_match_of_find?_none hfind senha
    constructor
    · rw [hfs.1]
      simp only [List.mem_append]
      constructor
      · rintro ⟨r, hr, hc⟩
        exact ⟨r, Or.inr hr, hc⟩
      · rintro ⟨r, hr | hr, hc⟩
        · rw [hno r hr] at hc
          exact absurd hc (by simp)
        · exact ⟨r, hr, hc⟩
    · intro u hget
      refine Or.inr ⟨hno, ?_, hfs.2 u hget⟩
      exact hfs.1.mp (by rw [hget]; rfl)
  | some t =>
    have hmem : t ∈ usuarios := List.mem_of_find?_eq_some hfind
    have hlog : loginEqb t login = true := by simpa using List.find?_some hfind
    dsimp only
    cases hsen : senhaEqb t senha with
    | true =>
      rw [if_pos rfl]
      have hmatch : credsMatch t login senha = true := by simp [credsMatch, hlog, hsen]
      constructor
      · exact ⟨fun _ => ⟨t, List.mem_append.mpr (Or.inl hmem), hmatch⟩, fun _ => rfl⟩
      · intro u hget
        have h2 := (LoginResult.ok.inj hget).symm
        subst h2
        exact Or.inl ⟨⟨t, hmem, hmatch⟩, rfl⟩
    | false =>
      rw [if_neg (by simp)]
      have hno := no_match_of_bad_senha hu hfind hsen
      constructor
      · rw [hfs.1]
        simp only [List.mem_append]
        constructor
        · rintro ⟨r, hr, hc⟩
          exact ⟨r, Or.inr hr, hc⟩
        · rintro ⟨r, hr | hr, hc⟩
          · rw [hno r hr] at hc
            exact absurd hc (by simp)
          · exact ⟨r, hr, hc⟩
      · intro u hget
        refine Or.inr ⟨hno, ?_, hfs.2 u hget⟩
        exact hfs.1.mp (by rw [hget]; rfl)

/-- C1 counterexample to the claim as stated: with the empty supplied login,
a stored record matching both the supplied login and senha exists, yet the
handler rejects the request (its validation treats the empty credential as
missing). -/
theorem c1_counterexample :
    (loginHandler [] [emptyLoginUser] [] "" "x").isOk = false
    ∧ emptyLoginUser ∈ ([] : List Obj) ++ [emptyLoginUser] ++ []
    ∧ credsMatch emptyLoginUser "" "x" = true := by
  refine ⟨rfl, by simp, by decide⟩

/-- C1 amended: provided the supplied login and senha are both non-empty
(empty credentials are rejected by the validation regardless of stored
data), and provided logins are pairwise distinct within each collection,
POST /api/login succeeds if and only if some record of medicos.json,
usuarios.json or funcionarios.json matches both the supplied login and
senha, and on success the returned user's tipo is medico, tutor or
funcionario according to the first collection, in that search order, holding
a matching record. -/
theorem c1_login (medicos usuarios funcionarios : List Obj) (login senha : String)
    (hl : login ≠ "") (hs : senha ≠ "")
    (hm : distinctLogins medicos) (hu : distinctLogins usuarios)
    (hf : distinctLogins funcionarios) :
    ((loginHandler medicos usuarios funcionarios login senha).isOk = true ↔
      ∃ r ∈ medicos ++ (usuarios ++ funcionarios), credsMatch r login senha = true)
    ∧ (∀ u, loginHandler medicos usuarios funcionarios login senha = .ok u →
        ((∃ r ∈ medicos, credsMatch r login senha = true) ∧ u ("tipo") = some (.vstr "medico"))
        ∨ ((∀ r ∈ medicos, credsMatch r login senha = false)
            ∧ (∃ r ∈ usuarios, credsMatch r login senha = true)
            ∧ u ("tipo") = some (.vstr "tutor"))
        ∨ ((∀ r ∈ medicos, credsMatch r login senha = false)
            ∧ (∀ r ∈ usuarios, credsMatch r login senha = false)
            ∧ (∃ r ∈ funcionarios, credsMatch r login senha = true)
            ∧ u ("tipo") = some (.vstr "funcionario"))) := by
  have hus := loginUsuarios_spec usuarios funcionarios login senha hu hf
  have hcond : ¬ (login = "" ∨ senha = "") := not_or.mpr ⟨hl, hs⟩
  rw [loginHandler, if_neg hcond]
  cases hfind : medicos.find? (fun r => loginEqb r login) with
  | none =>
    dsimp only
    have hno := no_match_of_find?_none hfind senha
    constructor
    · rw [hus.1]
      simp only [List.mem_append]
      constructor
      · rintro ⟨r, hr, hc⟩
        exact ⟨r, Or.inr hr, hc⟩
      · rintro ⟨r, hr | hr, hc⟩
        · rw [hno r hr] at hc
          exact absurd hc (by simp)
        · exact ⟨r, hr, hc⟩
    · intro u hget
      rcases hus.2 u hget with ⟨hex, htipo⟩ | ⟨hnou, hex, htipo⟩
      · exact Or.inr (Or.inl ⟨hno, hex, htipo⟩)
      · exact Or.inr (Or.inr ⟨hno, hnou, hex, htipo⟩)
  | some m =>
    have hmem : m ∈ medicos := List.mem_of_find?_eq_some hfind
    have hlog : loginEqb m login = true := by simpa using List.find?_some hfind
    dsimp only
    cases hsen : senhaEqb m senha with
    | true =>
      rw [if_pos rfl]
      have hmatch : credsMatch m login senha = true := by simp [credsMatch, hlog, hsen]
      constructor
      · exact ⟨fun _ => ⟨m, List.mem_append.mpr (Or.inl hmem), hmatch⟩, fun _ => rfl⟩
      · intro u hget
        have h2 := (LoginResult.ok.inj hget).symm
        subst h2
        exact Or.inl ⟨⟨m, hmem, hmatch⟩, rfl⟩
    | false =>
      rw [if_neg (by simp)]
      have hno := no_match_of_bad_senha hm hfind hsen
      constructor
      · rw [hus.1]
        simp only [List.mem_append]
        constructor
        · rintro ⟨r, hr, hc⟩
          exact ⟨r, Or.inr hr, hc⟩
        · rintro ⟨r, hr | hr, hc⟩
          · rw [hno r hr] at hc
            exact absurd hc (by simp)
          · exact ⟨r, hr, hc⟩
      · intro u hget
        rcases hus.2 u hget with ⟨hex, htipo⟩ | ⟨hnou, hex, htipo⟩
        · exact Or.inr (Or.inl ⟨hno, hex, htipo⟩)
        · exact Or.inr (Or.inr ⟨hno, hnou, hex, htipo⟩)

/-- Witness for C1 (amended): a concrete médico logs in successfully. -/
theorem c1_login_witness :
    (loginHandler [medicoRec] [] [] "bia" "123456").isOk = true := by
  have h := c1_login [medicoRec] [] [] "bia" "123456" (by decide) (by decide)
    (by simp [distinctLogins]) (by simp [distinctLogins]) (by simp [distinctLogins])
  exact h.1.mpr ⟨medicoRec, by simp, by decide⟩

/-! ### C8: no stored senha is revealed -/

theorem scrub_app {a b : Obj} (h : Obj.scrubSenha a = Obj.scrubSenha b) (k : String)
    (hk : k ≠ "senha") : a k = b k := by
  have h2 := congrFun h k
  simpa [Obj.scrubSenha, hk] using h2

theorem loginFuncionarios_ok_no_senha (funcionarios : List Obj) (login senha : String) (u : Obj)
    (h : loginFuncionarios funcionarios login senha = .ok u) : u ("senha") = none := by
  rw [loginFuncionarios] at h
  cases hfind : funcionarios.find? (fun f => loginEqb f login) with
  | none =>
    rw [hfind] at h
    exact LoginResult.noConfusion h
  | some f =>
    rw [hfind] at h
    dsimp only at h
    cases hsen : senhaEqb f senha with
    | true =>
      rw [hsen, if_pos rfl] at h
      have h2 := (LoginResult.ok.inj h).symm
      subst h2
      rfl
    | false =>
      rw [hsen, if_neg (by simp)] at h
      exact LoginResult.noConfusion h

theorem loginUsuarios_ok_no_senha (usuarios funcionarios : List Obj) (login senha : String) (u : Obj)
    (h : loginUsuarios usuarios funcionarios login senha = .ok u) : u ("senha") = none := by
  rw [loginUsuarios] at h
  cases hfind : usuarios.find? (fun r => loginEqb r login) with
  | none =>
    rw [hfind] at h
    exact loginFuncionarios_ok_no_senha funcionarios login senha u h
  | some t =>
    rw [hfind] at h
    dsimp only at h
    cases hsen : senhaEqb t senha with
    | true =>
      rw [hsen, if_pos rfl] at h
      have h2 := (LoginResult.ok.inj h).symm
      subst h2
      rfl
    | false =>
      rw [hsen, if_neg (by simp)] at h
      exact loginFuncionarios_ok_no_senha funcionarios login senha u h

theorem loginHandler_ok_no_senha (medicos usuarios funcionarios : List Obj)
    (login senha : String) (u : Obj)
    (h : loginHandler medicos usuarios funcionarios login senha = .ok u) :
    u ("senha") = none := by
  rw [loginHandler] at h
  by_cases hcond : login = "" ∨ senha = ""
  · rw [if_pos hcond] at h
    exact LoginResult.noConfusion h
  · rw [if_neg hcond] at h
    cases hfind : medicos.find? (fun r => loginEqb r login) with
    | none =>
      rw [hfind] at h
      exact loginUsuarios_ok_no_senha usuarios funcionarios login senha u h
    | some m =>
      rw [hfind] at h
      dsimp only at h
      cases hsen : senhaEqb m senha with
      | true =>
        rw [hsen, if_pos rfl] at h
        have h2 := (LoginResult.ok.inj h).symm
        subst h2
        rfl
      | false =>
        rw [hsen, if_neg (by simp)] at h
        exact loginUsuarios_ok_no_senha usuarios funcionarios login senha u h

theorem funcionarioSafe_no_senha (f : Obj) : funcionarioSafe f ("senha") = none := rfl

theorem funcionarioSafe_projection (f : Obj) (k : String)
    (h : k ∉ (["id", "nome", "login", "contato", "role", "crmv"] : List String)) :
    funcionarioSafe f k = none := by
  simp only [List.mem_cons, List.mem_singleton, not_or] at h
  obtain ⟨h1, h2, h3, h4, h5, h6⟩ := h
  simp [funcionarioSafe, Obj.setOpt, Obj.empty, h1, h2, h3, h4, h5, h6]

theorem funcionarioSafe_of_scrub_eq {r1 r2 : Obj}
    (h : Obj.scrubSenha r1 = Obj.scrubSenha r2) :
    funcionarioSafe r1 = funcionarioSafe r2 := by
  funext k
  simp only [funcionarioSafe, Obj.setOpt, Obj.empty]
  split_ifs <;> first
    | rfl
    | exact scrub_app h ("crmv") (by decide)
    | exact scrub_app h ("role") (by decide)
    | exact scrub_app h ("contato") (by decide)
    | exact scrub_app h ("login") (by decide)
    | exact scrub_app h ("nome") (by decide)
    | exact scrub_app h ("id") (by decide)

theorem find?_login_related (login senha : String) :
    ∀ (l1 l2 : List Obj),
      l1.map Obj.scrubSenha = l2.map Obj.scrubSenha →
      l1.map (fun r => senhaEqb r senha) = l2.map (fun r => senhaEqb r senha) →
      (l1.find? (fun r => loginEqb r login) = none
        ∧ l2.find? (fun r => loginEqb r login) = none)
      ∨ ∃ r1 r2, l1.find? (fun r => loginEqb r login) = some r1
          ∧ l2.find? (fun r => loginEqb r login) = some r2
          ∧ Obj.scrubSenha r1 = Obj.scrubSenha r2
          ∧ senhaEqb r1 senha = senhaEqb r2 senha := by
  intro l1
  induction l1 with
  | nil =>
    intro l2 h1 _
    cases l2 with
    | nil => exact Or.inl ⟨rfl, rfl⟩
    | cons y ys => exact absurd h1 (by simp)
  | cons x xs ih =>
    intro l2 h1 h2
    cases l2 with
    | nil => exact absurd h1 (by simp)
    | cons y ys =>
      simp only [List.map_cons, List.cons.injEq] at h1 h2
      obtain ⟨hxy, hxs⟩ := h1
      obtain ⟨hsen1, hsens⟩ := h2
      have hlog : loginEqb x login = loginEqb y login := by
        rw [loginEqb, loginEqb, scrub_app hxy ("login") (by decide)]
      cases hx : loginEqb x login with
      | true =>
        refine Or.inr ⟨x, y, ?_, ?_, hxy, hsen1⟩
        · exact List.find?_cons_of_pos xs hx
        · exact List.find?_cons_of_pos ys (by rw [← hlog]; exact hx)
      | false =>
        have hy : loginEqb y login = false := by rw [← hlog]; exact hx
        have e1 : (x :: xs).find? (fun r => loginEqb r login)
            = xs.find? (fun r => loginEqb r login) :=
          List.find?_cons_of_neg xs (by simp [hx])
        have e2 : (y :: ys).find? (fun r => loginEqb r login)
            = ys.find? (fun r => loginEqb r login) :=
          List.find?_cons_of_neg ys (by simp [hy])
        rcases ih ys hxs hsens with ⟨hn1, hn2⟩ | ⟨r1, r2, hf1, hf2, hs12, hsn⟩
        · exact Or.inl ⟨by rw [e1, hn1], by rw [e2, hn2]⟩
        · exact Or.inr ⟨r1, r2, by rw [e1, hf1], by rw [e2, hf2], hs12, hsn⟩

theorem loginFuncionarios_ni (f1 f2 : List Obj) (login senha : String)
    (hsc : f1.map Obj.scrubSenha = f2.map Obj.scrubSenha)
    (hse : f1.map (fun r => senhaEqb r senha) = f2.map (fun r => senhaEqb r senha)) :
    loginFuncionarios f1 login senha = loginFuncionarios f2 login senha := by
  rw [loginFuncionarios, loginFuncionarios]
  rcases find?_login_related login senha f1 f2 hsc hse with ⟨h1, h2⟩ | ⟨r1, r2, h1, h2, hs12, hsn⟩
  · rw [h1, h2]
  · rw [h1, h2]
    dsimp only
    rw [hsn]
    cases hsen : senhaEqb r2 senha with
    | false => rw [if_neg (by simp), if_neg (by simp)]
    | true =>
      rw [if_pos rfl, if_pos rfl]
      congr 1
      funext k
      simp only [Obj.set, Obj.setOpt, Obj.empty]
      split_ifs <;> first
        | rfl
        | exact scrub_app hs12 ("role") (by decide)
        | exact scrub_app hs12 ("contato") (by decide)
        | exact scrub_app hs12 ("login") (by decide)
        | exact scrub_app hs12 ("nome") (by decide)
        | exact scrub_app hs12 ("id") (by decide)

theorem loginUsuarios_ni (u1 u2 f1 f2 : List Obj) (login senha : String)
    (hscu : u1.map Obj.scrubSenha = u2.map Obj.scrubSenha)
    (hseu : u1.map (fun r => senhaEqb r senha) = u2.map (fun r => senhaEqb r senha))
    (hscf : f1.map Obj.scrubSenha = f2.map Obj.scrubSenha)
    (hsef : f1.map (fun r => senhaEqb r senha) = f2.map (fun r => senhaEqb r senha)) :
    loginUsuarios u1 f1 login senha = loginUsuarios u2 f2 login senha := by
  rw [loginUsuarios, loginUsuarios]
  rcases find?_login_related login senha u1 u2 hscu hseu with ⟨h1, h2⟩ | ⟨r1, r2, h1, h2, hs12, hsn⟩
  · rw [h1, h2]
    exact loginFuncionarios_ni f1 f2 login senha hscf hsef
  · rw [h1, h2]
    dsimp only
    rw [hsn]
    cases hsen : senhaEqb r2 senha with
    | false =>
      rw [if_neg (by simp), if_neg (by simp)]
      exact loginFuncionarios_ni f1 f2 login senha hscf hsef
    | true =>
      rw [if_pos rfl, if_pos rfl]
      congr 1
      funext k
      simp only [Obj.set, Obj.del]
      split_ifs with hk1 hk2
      · rfl
      · rfl
      · exact scrub_app hs12 k hk1

theorem loginHandler_ni (m1 m2 u1 u2 f1 f2 : List Obj) (login senha : String)
    (hscm : m1.map Obj.scrubSenha = m2.map Obj.scrubSenha)
    (hsem : m1.map (fun r => senhaEqb r senha) = m2.map (fun r => senhaEqb r senha))
    (hscu : u1.map Obj.scrubSenha = u2.map Obj.scrubSenha)
    (hseu : u1.map (fun r => senhaEqb r senha) = u2.map (fun r => senhaEqb r senha))
    (hscf : f1.map Obj.scrubSenha = f2.map Obj.scrubSenha)
    (hsef : f1.map (fun r => senhaEqb r senha) = f2.map (fun r => senhaEqb r senha)) :
    loginHandler m1 u1 f1 login senha = loginHandler m2 u2 f2 login senha := by
  rw [loginHandler, loginHandler]
  by_cases hcond : login = "" ∨ senha = ""
  · rw [if_pos hcond, if_pos hcond]
  · rw [if_neg hcond, if_neg hcond]
    rcases find?_login_related login senha m1 m2 hscm hsem with ⟨h1, h2⟩ | ⟨r1, r2, h1, h2, hs12, hsn⟩
    · rw [h1, h2]
      exact loginUsuarios_ni u1 u2 f1 f2 login senha hscu hseu hscf hsef
    · rw [h1, h2]
      dsimp only
      rw [hsn]
      cases hsen : senhaEqb r2 senha with
      | false =>
        rw [if_neg (by simp), if_neg (by simp)]
        exact loginUsuarios_ni u1 u2 f1 f2 login senha hscu hseu hscf hsef
      | true =>
        rw [if_pos rfl, if_pos rfl]
        congr 1
        funext k
        simp only [Obj.set, Obj.del]
        split_ifs with hk1 hk2
        · rfl
        · rfl
        · exact scrub_app hs12 k hk1

theorem listFuncionarios_ni : ∀ (f1 f2 : List Obj),
    f1.map Obj.scrubSenha = f2.map Obj.scrubSenha →
    listFuncionarios f1 = listFuncionarios f2 := by
  intro f1
  induction f1 with
  | nil =>
    intro f2 h
    cases f2 with
    | nil => rfl
    | cons y ys => exact absurd h (by simp)
  | cons x xs ih =>
    intro f2 h
    cases f2 with
    | nil => exact absurd h (by simp)
    | cons y ys =>
      simp only [List.map_cons, List.cons.injEq] at h
      obtain ⟨hxy, hxs⟩ := h
      have htail := ih ys hxs
      have htail2 : xs.map funcionarioSafe = ys.map funcionarioSafe :=
        congrArg ListFuncResult.funcionarios htail
      simp only [listFuncionarios, List.map_cons]
      rw [funcionarioSafe_of_scrub_eq hxy, htail2]

/-- C8: no stored password is revealed by a response: a successful login
answers a user object with no senha field; GET /api/funcionarios answers
each record projected to id, nome, login, contato, role, crmv only; and two
states that differ only in stored senha values, with equal senha-check
outcomes for the supplied senha, produce identical response payloads for
both operations. -/
theorem c8_no_senha_leak :
    (∀ medicos usuarios funcionarios login senha u,
      loginHandler medicos usuarios funcionarios login senha = .ok u → u ("senha") = none)
    ∧ (∀ funcionarios : List Obj,
        (listFuncionarios funcionarios).funcionarios = funcionarios.map funcionarioSafe
        ∧ ∀ r ∈ (listFuncionarios funcionarios).funcionarios,
            r ("senha") = none
            ∧ ∀ k, k ∉ (["id", "nome", "login", "contato", "role", "crmv"] : List String) →
                r k = none)
    ∧ (∀ m1 m2 u1 u2 f1 f2 login senha,
        m1.map Obj.scrubSenha = m2.map Obj.scrubSenha →
        m1.map (fun r => senhaEqb r senha) = m2.map (fun r => senhaEqb r senha) →
        u1.map Obj.scrubSenha = u2.map Obj.scrubSenha →
        u1.map (fun r => senhaEqb r senha) = u2.map (fun r => senhaEqb r senha) →
        f1.map Obj.scrubSenha = f2.map Obj.scrubSenha →
        f1.map (fun r => senhaEqb r senha) = f2.map (fun r => senhaEqb r senha) →
        loginHandler m1 u1 f1 login senha = loginHandler m2 u2 f2 login senha
        ∧ listFuncionarios f1 = listFuncionarios f2) := by
  refine ⟨loginHandler_ok_no_senha, ?_, ?_⟩
  · intro funcionarios
    refine ⟨rfl, ?_⟩
    intro r hr
    rcases List.mem_map.mp hr with ⟨g, _, rfl⟩
    exact ⟨funcionarioSafe_no_senha g, fun k hk => funcionarioSafe_projection g k hk⟩
  · intro m1 m2 u1 u2 f1 f2 login senha hscm hsem hscu hseu hscf hsef
    exact ⟨loginHandler_ni m1 m2 u1 u2 f1 f2 login senha hscm hsem hscu hseu hscf hsef,
      listFuncionarios_ni f1 f2 hscf⟩

/-- Witness for C8: a successful médico login carries no senha; the
funcionários listing of a concrete record carries no senha; and two stores
whose only difference is the stored senha (both mismatching the supplied
one) produce identical login responses. -/
theorem c8_no_senha_leak_witness :
    ((medicoRec.set ("tipo") (.vstr "medico")).del ("senha")) ("senha") = none
    ∧ (funcionarioSafe vetFunc) ("senha") = none
    ∧ loginHandler [medicoRec] [] [] "bia" "zzz" = loginHandler [medicoRec2] [] [] "bia" "zzz" := by
  have hscrub : [medicoRec].map Obj.scrubSenha = [medicoRec2].map Obj.scrubSenha := by
    simp only [List.map_cons, List.map_nil, List.cons.injEq, and_true]
    funext k
    by_cases hk : k = "senha" <;>
      simp [Obj.scrubSenha, medicoRec, medicoRec2, Obj.set, Obj.empty, hk]
  refine ⟨?_, ?_, ?_⟩
  · exact c8_no_senha_leak.1 [medicoRec] [] [] "bia" "123456"
      ((medicoRec.set ("tipo") (.vstr "medico")).del ("senha")) rfl
  · have hmem : funcionarioSafe vetFunc ∈ (listFuncionarios [vetFunc]).funcionarios := by
      simp [listFuncionarios]
    exact ((c8_no_senha_leak.2.1 [vetFunc]).2 (funcionarioSafe vetFunc) hmem).1
  · exact (c8_no_senha_leak.2.2 [medicoRec] [medicoRec2] [] [] [] [] "bia" "zzz"
      hscrub (by decide) rfl rfl rfl rfl).1

end VetHub
